import Mathlib

/-!
Verification of the FTP (Funds Transfer Pricing) calculator engine.

The repository ships the engine as a compiled extension module
(`ftp_calculator._core`, "powered by Rust"); only the Python re-export
stubs and the pytest suite (`src/python-lib/tests/test_ftp.py`) are
present as source. The engine itself is therefore modelled from the
specification (`spec.md`), and the pytest suite's asserted reference
values are embedded as the repository's concrete authority where they
bear on a claim.

All arithmetic is carried out over ℚ; the reference fixtures are exact
decimal fractions, so every asserted value is representable exactly.
-/

namespace FTP

/-- Modelled from the spec: the three input matrices of the engine
(spec §3, §6). The host passes rectangular numeric arrays; here each
matrix is a total function together with its shape, mirroring an
ndarray whose shape is queried by the validator. `outstanding` is the
N×1 column, `profile` is N×M, `rate` is N×(M−1). -/
structure Inputs where
  nOut : ℕ
  nProf : ℕ
  mProf : ℕ
  nRate : ℕ
  mRate : ℕ
  outstanding : ℕ → ℚ
  profile : ℕ → ℕ → ℚ
  rate : ℕ → ℕ → ℚ

/-- Modelled from the spec: the Input Validator (spec §4.1). Fails
(returns `false`) when the row counts of the three inputs differ, or
when the profile column count is not the rate column count plus one. -/
def validate (inp : Inputs) : Bool :=
  inp.nProf = inp.nOut && inp.nRate = inp.nOut && inp.mProf = inp.mRate + 1

/-- Modelled from the spec: stock-method `stock_amort` (spec §4.2):
`stock_amort[i,j] = outstanding[i] * profile[i,j]`. -/
def stock_amort (inp : Inputs) (i j : ℕ) : ℚ :=
  inp.outstanding i * inp.profile i j

/-- Modelled from the spec: stock-method `stock_instal` (spec §4.2):
`stock_instal[i,0] = 0`, and for j ≥ 1 the first difference
`stock_amort[i,j-1] − stock_amort[i,j]`. -/
def stock_instal (inp : Inputs) (i j : ℕ) : ℚ :=
  if j = 0 then 0 else stock_amort inp i (j - 1) - stock_amort inp i j

/-- Modelled from the spec: stock-method `varstock_amort` (spec §4.2):
row 0 copies `stock_amort`; for i > 0 it is
`stock_amort[i,j] − stock_amort[i-1,j+1]`, the out-of-range cell
`stock_amort[i-1,M]` being treated as 0. -/
def stock_varstock_amort (inp : Inputs) (i j : ℕ) : ℚ :=
  if i = 0 then stock_amort inp 0 j
  else stock_amort inp i j -
    (if j + 1 < inp.mProf then stock_amort inp (i - 1) (j + 1) else 0)

/-- Modelled from the spec: stock-method `varstock_instal` (spec §4.2):
first differences of `varstock_amort`, column 0 being 0. -/
def stock_varstock_instal (inp : Inputs) (i j : ℕ) : ℚ :=
  if j = 0 then 0
  else stock_varstock_amort inp i (j - 1) - stock_varstock_amort inp i j

/-- The stock-method reference fixture of `test_ftp.py`
(`STOCK_OUTSTANDING`, `STOCK_PROFILES`, `STOCK_RATES`). -/
def stockInp : Inputs where
  nOut := 3
  nProf := 3
  mProf := 4
  nRate := 3
  mRate := 3
  outstanding := fun i => [(1000 : ℚ), 1200, 1350].getD i 0
  profile := fun i j =>
    (([[(1 : ℚ), 1/2, 1/5, 1/20],
       [1, 1/2, 1/5, 1/20],
       [1, 1/2, 1/5, 1/20]]).getD i []).getD j 0
  rate := fun i j =>
    (([[(13 : ℚ)/1000, 14/1000, 16/1000],
       [136/10000, 146/10000, 166/10000],
       [143/10000, 153/10000, 173/10000]]).getD i []).getD j 0

example : validate stockInp = true := by decide
example : stock_amort stockInp 0 1 = 500 := by
  norm_num [stock_amort, stockInp]
example : stock_amort stockInp 2 3 = 135/2 := by
  norm_num [stock_amort, stockInp]
example : stock_instal stockInp 0 3 = 150 := by
  norm_num [stock_instal, stock_amort, stockInp]
example : stock_varstock_amort stockInp 1 0 = 700 := by
  norm_num [stock_varstock_amort, stock_amort, stockInp]
example : stock_varstock_amort stockInp 2 0 = 750 := by
  norm_num [stock_varstock_amort, stock_amort, stockInp]
example : stock_varstock_instal stockInp 1 2 = 210 := by
  norm_num [stock_varstock_instal, stock_varstock_amort, stock_amort, stockInp]

/-- Modelled from the spec: flux-method `stock_amort` (spec §4.3),
computed by a forward scan over cohorts (spec §9, diagonal cross-row
dependency). Row i adds the cohort's new-production layer
(`varstock_amort[i,0]` decayed by the profile) to what remains alive
from the previous total one bucket later, out-of-range cells being 0. -/
def flux_stock_amort (inp : Inputs) : ℕ → ℕ → ℚ
  | 0, j =>
      if j = 0 then inp.outstanding 0 else inp.outstanding 0 * inp.profile 0 j
  | i + 1, j =>
      (let va0 := inp.outstanding (i + 1) -
        (if 1 < inp.mProf then flux_stock_amort inp i 1 else 0)
       if j = 0 then va0 else va0 * inp.profile (i + 1) j) +
      (if j + 1 < inp.mProf then flux_stock_amort inp i (j + 1) else 0)

/-- Modelled from the spec: flux-method `varstock_amort[i,0]`
(spec §4.3): `outstanding[0]` for i = 0, and
`outstanding[i] − stock_amort[i-1,1]` for i > 0 (0 if out of range). -/
def flux_va0 (inp : Inputs) : ℕ → ℚ
  | 0 => inp.outstanding 0
  | i + 1 =>
      inp.outstanding (i + 1) -
        (if 1 < inp.mProf then flux_stock_amort inp i 1 else 0)

/-- Modelled from the spec: flux-method `varstock_amort` (spec §4.3):
column 0 is `flux_va0`; later columns decay it by the cohort's own
profile row. -/
def flux_varstock_amort (inp : Inputs) (i j : ℕ) : ℚ :=
  if j = 0 then flux_va0 inp i else flux_va0 inp i * inp.profile i j

/-- Modelled from the spec: flux-method `stock_instal` (spec §4.3):
the same first-difference formula as the stock method, applied to the
flux `stock_amort`. -/
def flux_stock_instal (inp : Inputs) (i j : ℕ) : ℚ :=
  if j = 0 then 0 else flux_stock_amort inp i (j - 1) - flux_stock_amort inp i j

/-- Modelled from the spec: flux-method `varstock_instal` (spec §4.3):
first differences of the flux `varstock_amort`. -/
def flux_varstock_instal (inp : Inputs) (i j : ℕ) : ℚ :=
  if j = 0 then 0
  else flux_varstock_amort inp i (j - 1) - flux_varstock_amort inp i j

/-- The flux `stock_amort` satisfies the spec's defining recurrence
`stock_amort[i,j] = varstock_amort[i,j] + stock_amort[i-1,j+1]`, the
second term being 0 when i = 0 or j+1 is out of range. -/
lemma flux_stock_amort_eq (inp : Inputs) (i j : ℕ) :
    flux_stock_amort inp i j =
      flux_varstock_amort inp i j +
        (if 0 < i ∧ j + 1 < inp.mProf then flux_stock_amort inp (i - 1) (j + 1)
         else 0) := by
  cases i with
  | zero =>
      simp [flux_stock_amort, flux_varstock_amort, flux_va0]
  | succ i =>
      simp only [flux_stock_amort, flux_varstock_amort, flux_va0,
        Nat.succ_sub_one, Nat.succ_pos, true_and]

/-- Modelled from the spec: the Rate & Interest Assigner's
`market_rate` (spec §4.4 baseline): column 0 is 0 and column j ≥ 1 is
the cohort's own `rate[i,j-1]`. The spec flags cross-cohort blending
for flux cohorts i > 0 as an unresolved open question (spec §4.4, §9);
this definition is the stated single-row-lookup baseline, which the
repository tests confirm for the stock method and for flux cohort 0. -/
def market_rate (inp : Inputs) (i j : ℕ) : ℚ :=
  if j = 0 then 0 else inp.rate i (j - 1)

/-- Modelled from the spec: the assigner's weighted-sum numerator
`Σ_{k>j} varstock_instal[i,k] * market_rate[i,k]` (spec §4.4), for a
given `varstock_instal` matrix `vi`. -/
def ftpNum (inp : Inputs) (vi : ℕ → ℕ → ℚ) (i j : ℕ) : ℚ :=
  ∑ k ∈ Finset.Ico (j + 1) inp.mProf, vi i k * market_rate inp i k

/-- Modelled from the spec: the assigner's weight denominator
`Σ_{k>j} varstock_instal[i,k]` (spec §4.4). -/
def ftpDen (inp : Inputs) (vi : ℕ → ℕ → ℚ) (i j : ℕ) : ℚ :=
  ∑ k ∈ Finset.Ico (j + 1) inp.mProf, vi i k

/-- Modelled from the spec: `ftp_rate` (spec §4.4), the
installment-weighted average of future market rates, defined as 0 when
the denominator is 0. -/
def ftp_rate (inp : Inputs) (vi : ℕ → ℕ → ℚ) (i j : ℕ) : ℚ :=
  if ftpDen inp vi i j = 0 then 0 else ftpNum inp vi i j / ftpDen inp vi i j

/-- Modelled from the spec: `ftp_int` (spec §4.4), the
monthly-equivalent funding cost `ftpNum / 12`. -/
def ftp_int (inp : Inputs) (vi : ℕ → ℕ → ℚ) (i j : ℕ) : ℚ :=
  ftpNum inp vi i j / 12

/-- The flux-method reference fixture of `test_ftp.py`
(`FLUX_OUTSTANDING`, `FLUX_PROFILES`, `FLUX_RATES`). -/
def fluxInp : Inputs where
  nOut := 2
  nProf := 2
  mProf := 3
  nRate := 2
  mRate := 2
  outstanding := fun i => [(800 : ℚ), 900].getD i 0
  profile := fun i j =>
    (([[(1 : ℚ), 3/5, 3/10], [1, 3/5, 3/10]]).getD i []).getD j 0
  rate := fun i j =>
    (([[(12 : ℚ)/1000, 13/1000], [125/10000, 135/10000]]).getD i []).getD j 0

example : validate fluxInp = true := by decide
example : flux_stock_amort fluxInp 0 1 = 480 := by
  norm_num [flux_stock_amort, fluxInp]
example : flux_va0 fluxInp 1 = 420 := by
  norm_num [flux_va0, flux_stock_amort, fluxInp]
example : flux_stock_amort fluxInp 1 0 = 900 := by
  norm_num [flux_stock_amort, fluxInp]
example : flux_stock_amort fluxInp 1 1 = 492 := by
  norm_num [flux_stock_amort, fluxInp]
example : flux_stock_amort fluxInp 1 2 = 126 := by
  norm_num [flux_stock_amort, fluxInp]
example : flux_varstock_amort fluxInp 1 1 = 252 := by
  norm_num [flux_varstock_amort, flux_va0, flux_stock_amort, fluxInp]
example : flux_stock_instal fluxInp 1 2 = 366 := by
  norm_num [flux_stock_instal, flux_stock_amort, fluxInp]

/-- Modelled from the spec: the engine's error taxonomy (spec §7). -/
inductive FtpError where
  | dimensionMismatch : FtpError
  | unknownMethod : FtpError
  | notComputed : FtpError
deriving DecidableEq

/-- Modelled from the spec: the OutputBundle (spec §3) — the seven
N×M output matrices produced together by one `compute` invocation. -/
structure OutputBundle where
  stock_amort : ℕ → ℕ → ℚ
  stock_instal : ℕ → ℕ → ℚ
  varstock_amort : ℕ → ℕ → ℚ
  varstock_instal : ℕ → ℕ → ℚ
  ftp_rate : ℕ → ℕ → ℚ
  ftp_int : ℕ → ℕ → ℚ
  market_rate : ℕ → ℕ → ℚ

/-- Modelled from the spec: names of the seven output matrices, i.e.
the facade's output accessors (spec §4.5, §6). -/
inductive OutputKey where
  | stock_amort | stock_instal | varstock_amort | varstock_instal
  | ftp_rate | ftp_int | market_rate
deriving DecidableEq

/-- Modelled from the spec: running the selected decomposer and then
the assigner, assembling all seven matrices (spec §2 data flow). The
flux variant is selected when `method` is "flux", otherwise the stock
variant is produced. -/
def computeOutputs (inp : Inputs) (method : String) : OutputBundle :=
  if method = "flux" then
    { stock_amort := flux_stock_amort inp
      stock_instal := flux_stock_instal inp
      varstock_amort := flux_varstock_amort inp
      varstock_instal := flux_varstock_instal inp
      ftp_rate := ftp_rate inp (flux_varstock_instal inp)
      ftp_int := ftp_int inp (flux_varstock_instal inp)
      market_rate := market_rate inp }
  else
    { stock_amort := stock_amort inp
      stock_instal := stock_instal inp
      varstock_amort := stock_varstock_amort inp
      varstock_instal := stock_varstock_instal inp
      ftp_rate := ftp_rate inp (stock_varstock_instal inp)
      ftp_int := ftp_int inp (stock_varstock_instal inp)
      market_rate := market_rate inp }

/-- Selects one of the bundle's seven matrices by name. -/
def OutputBundle.select (b : OutputBundle) : OutputKey → (ℕ → ℕ → ℚ)
  | OutputKey.stock_amort => b.stock_amort
  | OutputKey.stock_instal => b.stock_instal
  | OutputKey.varstock_amort => b.varstock_amort
  | OutputKey.varstock_instal => b.varstock_instal
  | OutputKey.ftp_rate => b.ftp_rate
  | OutputKey.ftp_int => b.ftp_int
  | OutputKey.market_rate => b.market_rate

/-- Modelled from the spec: the Calculator Facade (spec §4.5) — it
holds the immutable inputs and a state that is either Uninitialized
(`none`) or Computed (`some` bundle together with the method used). -/
structure Facade where
  inputs : Inputs
  state : Option (OutputBundle × String)

/-- A freshly constructed facade: Uninitialized (spec §3 lifecycle). -/
def Facade.init (inp : Inputs) : Facade :=
  { inputs := inp, state := none }

/-- Modelled from the spec: `compute(method)` (spec §4.5) as a state
transition. The method name is checked first — any name other than
"stock" or "flux" fails with UnknownMethod before any validation or
computation; then the Validator runs, failing with DimensionMismatch;
on success the full bundle and the method are stored. On any failure
the facade is returned unchanged, so it remains Uninitialized with no
partial bundle stored. -/
def Facade.compute (f : Facade) (method : String) : Facade × Option FtpError :=
  if method ≠ "stock" ∧ method ≠ "flux" then
    (f, some FtpError.unknownMethod)
  else if validate f.inputs = false then
    (f, some FtpError.dimensionMismatch)
  else
    ({ inputs := f.inputs, state := some (computeOutputs f.inputs method, method) },
     none)

/-- Modelled from the spec: an output accessor (spec §4.5): reading
one of the seven matrices fails with NotComputedError while the facade
is Uninitialized, and returns the cached matrix once Computed. -/
def Facade.get (f : Facade) (k : OutputKey) : Except FtpError (ℕ → ℕ → ℚ) :=
  match f.state with
  | none => Except.error FtpError.notComputed
  | some (b, _) => Except.ok (b.select k)

/-- Modelled from the spec: `dims()` (spec §4.5, §6) — the pair
(row count of outstanding, column count of profile), available in
every state since it derives from the inputs alone. -/
def Facade.dims (f : Facade) : ℕ × ℕ :=
  (f.inputs.nOut, f.inputs.mProf)

/-- Telescoping helper: summing first differences of `f` over columns
1..M−1 and adding the last value recovers the first value. -/
lemma telescope_diff (f : ℕ → ℚ) (M : ℕ) :
    (∑ j ∈ Finset.Ico 1 M, (f (j - 1) - f j)) + f (M - 1) = f 0 := by
  rw [Finset.sum_Ico_eq_sum_range]
  have h1 : ∀ k ∈ Finset.range (M - 1),
      f (1 + k - 1) - f (1 + k) = f k - f (k + 1) := by
    intro k _
    rw [show 1 + k - 1 = k by omega, show 1 + k = k + 1 by omega]
  rw [Finset.sum_congr rfl h1, Finset.sum_range_sub' f (M - 1)]
  ring

/-- C1: for every valid input the stock method computes
`stock_amort[i,j] = outstanding[i] * profile[i,j]`, with
`stock_instal[i,0] = 0` and
`stock_instal[i,j] = stock_amort[i,j-1] − stock_amort[i,j]` for j ≥ 1;
on the reference scenario `stock_amort` row 0 is [1000, 500, 200, 50]
and `stock_instal` row 0 is [0, 500, 300, 150]. -/
theorem claim_C1_stock_decomposition :
    (∀ inp : Inputs, validate inp = true →
      ∀ i < inp.nOut, ∀ j < inp.mProf,
        stock_amort inp i j = inp.outstanding i * inp.profile i j ∧
        stock_instal inp i 0 = 0 ∧
        (1 ≤ j → stock_instal inp i j =
          stock_amort inp i (j - 1) - stock_amort inp i j)) ∧
    (stock_amort stockInp 0 0 = 1000 ∧ stock_amort stockInp 0 1 = 500 ∧
     stock_amort stockInp 0 2 = 200 ∧ stock_amort stockInp 0 3 = 50) ∧
    (stock_instal stockInp 0 0 = 0 ∧ stock_instal stockInp 0 1 = 500 ∧
     stock_instal stockInp 0 2 = 300 ∧ stock_instal stockInp 0 3 = 150) := by
  refine ⟨fun inp _ i _ j _ => ⟨rfl, by simp [stock_instal], fun hj => ?_⟩, ?_, ?_⟩
  · have hj0 : j ≠ 0 := by omega
    simp [stock_instal, hj0]
  · refine ⟨?_, ?_, ?_, ?_⟩ <;> norm_num [stock_amort, stockInp]
  · refine ⟨?_, ?_, ?_, ?_⟩ <;> norm_num [stock_instal, stock_amort, stockInp]

/-- C1 witness: the universal part of C1 instantiated on the stock
reference fixture at cohort 0, bucket 1. -/
theorem claim_C1_witness :
    validate stockInp = true ∧
    stock_amort stockInp 0 1 = stockInp.outstanding 0 * stockInp.profile 0 1 :=
  ⟨by decide,
   (claim_C1_stock_decomposition.1 stockInp (by decide) 0 (by decide) 1
     (by decide)).1⟩

/-- C2: under the stock method, for every valid input,
`varstock_amort` row 0 copies `stock_amort` row 0; for i > 0,
`varstock_amort[i,j] = stock_amort[i,j] − stock_amort[i-1,j+1]` with
the out-of-range cell treated as 0, so in particular
`varstock_amort[i,M-1] = stock_amort[i,M-1]`; and `varstock_instal` is
the first-difference matrix of `varstock_amort` with column 0 zero. -/
theorem claim_C2_stock_varstock :
    ∀ inp : Inputs, validate inp = true →
      ∀ i < inp.nOut, ∀ j < inp.mProf,
        (i = 0 → stock_varstock_amort inp i j = stock_amort inp i j) ∧
        (1 ≤ i → stock_varstock_amort inp i j = stock_amort inp i j -
          (if j + 1 < inp.mProf then stock_amort inp (i - 1) (j + 1) else 0)) ∧
        (1 ≤ i → stock_varstock_amort inp i (inp.mProf - 1) =
          stock_amort inp i (inp.mProf - 1)) ∧
        stock_varstock_instal inp i 0 = 0 ∧
        (1 ≤ j → stock_varstock_instal inp i j =
          stock_varstock_amort inp i (j - 1) - stock_varstock_amort inp i j) := by
  intro inp _ i _ j _
  have hM : ¬ (inp.mProf - 1 + 1 < inp.mProf) := by omega
  refine ⟨fun hi => by simp [stock_varstock_amort, hi], fun hi => ?_,
    fun hi => ?_, by simp [stock_varstock_instal], fun hj => ?_⟩
  · have hi0 : i ≠ 0 := by omega
    simp [stock_varstock_amort, hi0]
  · have hi0 : i ≠ 0 := by omega
    simp [stock_varstock_amort, hi0, hM]
  · have hj0 : j ≠ 0 := by omega
    simp [stock_varstock_instal, hj0]

/-- C2 witness: C2 instantiated on the stock reference fixture at
cohort 1, bucket 0, where the layer is 1200 − 500 = 700. -/
theorem claim_C2_witness :
    validate stockInp = true ∧
    stock_varstock_amort stockInp 1 0 = stock_amort stockInp 1 0 -
      (if 0 + 1 < stockInp.mProf then stock_amort stockInp 0 (0 + 1) else 0) :=
  ⟨by decide,
   (claim_C2_stock_varstock stockInp (by decide) 1 (by decide) 0
     (by decide)).2.1 (by decide)⟩

/-- C3: under the flux method, for every valid input,
`varstock_amort[i,0]` is `outstanding[0]` for i = 0 and
`outstanding[i] − stock_amort[i-1,1]` (0 if out of range) for i > 0;
later columns decay column 0 by the cohort's profile; and
`stock_amort[i,j] = varstock_amort[i,j] + stock_amort[i-1,j+1]` with
the second term 0 when i = 0 or out of range. On the flux reference
scenario `varstock_amort` row 1 is [420, 252, 126] and `stock_amort`
row 1 is [900, 492, 126]. -/
theorem claim_C3_flux_decomposition :
    (∀ inp : Inputs, validate inp = true →
      ∀ i < inp.nOut, ∀ j < inp.mProf,
        (i = 0 → flux_varstock_amort inp i 0 = inp.outstanding 0) ∧
        (1 ≤ i → flux_varstock_amort inp i 0 = inp.outstanding i -
          (if 1 < inp.mProf then flux_stock_amort inp (i - 1) 1 else 0)) ∧
        (1 ≤ j → flux_varstock_amort inp i j =
          flux_varstock_amort inp i 0 * inp.profile i j) ∧
        flux_stock_amort inp i j = flux_varstock_amort inp i j +
          (if 0 < i ∧ j + 1 < inp.mProf then flux_stock_amort inp (i - 1) (j + 1)
           else 0)) ∧
    (flux_varstock_amort fluxInp 1 0 = 420 ∧
     flux_varstock_amort fluxInp 1 1 = 252 ∧
     flux_varstock_amort fluxInp 1 2 = 126) ∧
    (flux_stock_amort fluxInp 1 0 = 900 ∧
     flux_stock_amort fluxInp 1 1 = 492 ∧
     flux_stock_amort fluxInp 1 2 = 126) := by
  refine ⟨fun inp _ i _ j _ => ⟨fun hi => ?_, fun hi => ?_, fun hj => ?_,
    flux_stock_amort_eq inp i j⟩, ⟨?_, ?_, ?_⟩, ⟨?_, ?_, ?_⟩⟩
  · subst hi; rfl
  · obtain ⟨i, rfl⟩ : ∃ k, i = k + 1 := ⟨i - 1, by omega⟩
    simp [flux_varstock_amort, flux_va0]
  · have hj0 : j ≠ 0 := by omega
    simp [flux_varstock_amort, hj0]
  all_goals
    norm_num [flux_varstock_amort, flux_va0, flux_stock_amort, fluxInp]

/-- C3 witness: C3 instantiated on the flux reference fixture at
cohort 1, bucket 0, exhibiting the new-production layer 900 − 480. -/
theorem claim_C3_witness :
    validate fluxInp = true ∧
    flux_varstock_amort fluxInp 1 0 = fluxInp.outstanding 1 -
      (if 1 < fluxInp.mProf then flux_stock_amort fluxInp 0 1 else 0) :=
  ⟨by decide,
   (claim_C3_flux_decomposition.1 fluxInp (by decide) 1 (by decide) 0
     (by decide)).2.1 (by decide)⟩

/-- The value asserted for `market_rate[1,1]` on the flux fixture by
`TestComputeFlux.test_market_rate` in `test_ftp.py`
(`abs(mr[1, 1] - 0.0124768672) < 1e-8`). -/
def testFluxMarketRate11 : ℚ := 124768672/10000000000

/-- C4 counterexample: the claim predicts
`market_rate[1,1] = rate[1,0] = 0.0125` on the flux fixture with no
cross-cohort blending, but the repository's own test
`TestComputeFlux.test_market_rate` asserts
`|market_rate[1,1] − 0.0124768672| < 1e-8`, which the predicted value
violates: the engine blends rates across cohorts for flux cohorts
i > 0. -/
theorem claim_C4_counterexample :
    market_rate fluxInp 1 1 = fluxInp.rate 1 0 ∧
    fluxInp.rate 1 0 = 125/10000 ∧
    ¬ |(125/10000 : ℚ) - testFluxMarketRate11| < 1/100000000 := by
  refine ⟨rfl, by norm_num [fluxInp], ?_⟩
  rw [testFluxMarketRate11, abs_sub_lt_iff]
  norm_num

/-- C4 amended: the baseline single-row assignment
`market_rate[i,0] = 0`, `market_rate[i,j] = rate[i,j-1]` holds for
every valid input under the stock method and for cohort 0 under the
flux method (confirmed by the repository tests on both fixtures); for
flux cohorts i > 0 the engine blends rates across cohorts and the
single-row formula does not apply. -/
theorem claim_C4_amended :
    (∀ inp : Inputs, validate inp = true →
      ∀ i < inp.nOut,
        market_rate inp i 0 = 0 ∧
        ∀ j, 1 ≤ j → j < inp.mProf →
          market_rate inp i j = inp.rate i (j - 1)) ∧
    (market_rate stockInp 0 1 = 13/1000 ∧ market_rate stockInp 0 2 = 14/1000 ∧
     market_rate stockInp 0 3 = 16/1000) ∧
    (market_rate fluxInp 0 1 = 12/1000 ∧ market_rate fluxInp 0 2 = 13/1000) := by
  refine ⟨fun inp _ i _ => ⟨rfl, fun j hj _ => ?_⟩, ?_, ?_⟩
  · have hj0 : j ≠ 0 := by omega
    simp [market_rate, hj0]
  · refine ⟨?_, ?_, ?_⟩ <;> norm_num [market_rate, stockInp]
  · refine ⟨?_, ?_⟩ <;> norm_num [market_rate, fluxInp]

/-- C4 witness: the amended baseline instantiated on the stock fixture
at cohort 0, bucket 1. -/
theorem claim_C4_witness :
    validate stockInp = true ∧
    market_rate stockInp 0 1 = stockInp.rate 0 0 :=
  ⟨by decide,
   (claim_C4_amended.1 stockInp (by decide) 0 (by decide)).2 1 (by decide)
     (by decide)⟩

/-- C5: for every valid input and under both methods, `ftp_rate[i,j]`
is the installment-weighted average `Σ_{k>j} vi[i,k]*mr[i,k]` over
`Σ_{k>j} vi[i,k]` of the remaining market rates, is 0 whenever that
denominator is 0, and is 0 at the last column M−1. -/
theorem claim_C5_ftp_rate :
    ∀ inp : Inputs, validate inp = true →
      ∀ vi ∈ [stock_varstock_instal inp, flux_varstock_instal inp],
        ∀ i < inp.nOut, ∀ j < inp.mProf,
          (ftpDen inp vi i j ≠ 0 →
            ftp_rate inp vi i j =
              (∑ k ∈ Finset.Ico (j + 1) inp.mProf,
                vi i k * market_rate inp i k) /
              (∑ k ∈ Finset.Ico (j + 1) inp.mProf, vi i k)) ∧
          (ftpDen inp vi i j = 0 → ftp_rate inp vi i j = 0) ∧
          ftp_rate inp vi i (inp.mProf - 1) = 0 := by
  intro inp hv vi _ i _ j _
  have hM : 1 ≤ inp.mProf := by
    simp only [validate, Bool.and_eq_true, decide_eq_true_eq] at hv
    omega
  have he : Finset.Ico (inp.mProf - 1 + 1) inp.mProf = ∅ := by
    rw [show inp.mProf - 1 + 1 = inp.mProf by omega]
    simp
  refine ⟨fun hden => ?_, fun hden => by simp [ftp_rate, hden], ?_⟩
  · simp only [ftp_rate, if_neg hden]
    rfl
  · simp [ftp_rate, ftpDen, he]

/-- C5 witness: C5 instantiated on the stock fixture with the stock
`varstock_instal`, at cohort 0, bucket 0, checking the last column. -/
theorem claim_C5_witness :
    validate stockInp = true ∧
    ftp_rate stockInp (stock_varstock_instal stockInp) 0
      (stockInp.mProf - 1) = 0 :=
  ⟨by decide,
   (claim_C5_ftp_rate stockInp (by decide) (stock_varstock_instal stockInp)
     (by simp) 0 (by decide) 0 (by decide)).2.2⟩

/-- C6: for every valid input and under both methods, `ftp_int[i,j]`
is the weighted sum `Σ_{k>j} vi[i,k]*mr[i,k]` divided by 12, hence 0
at the last column; on the stock reference scenario
`ftp_int[0,0] ≈ 1.0916666667` and `ftp_int[0,1] = 0.55`. -/
theorem claim_C6_ftp_int :
    (∀ inp : Inputs, validate inp = true →
      ∀ vi ∈ [stock_varstock_instal inp, flux_varstock_instal inp],
        ∀ i < inp.nOut, ∀ j < inp.mProf,
          ftp_int inp vi i j =
            (∑ k ∈ Finset.Ico (j + 1) inp.mProf,
              vi i k * market_rate inp i k) / 12 ∧
          ftp_int inp vi i (inp.mProf - 1) = 0) ∧
    |ftp_int stockInp (stock_varstock_instal stockInp) 0 0 -
      10916666667/10000000000| < 1/100000000 ∧
    ftp_int stockInp (stock_varstock_instal stockInp) 0 1 = 11/20 := by
  have hval : ftp_int stockInp (stock_varstock_instal stockInp) 0 0 = 131/120 := by
    norm_num [ftp_int, ftpNum, Finset.sum_Ico_eq_sum_range,
      Finset.sum_range_succ, stock_varstock_instal, stock_varstock_amort,
      stock_amort, market_rate, stockInp]
  refine ⟨fun inp hv vi _ i _ j _ => ⟨rfl, ?_⟩, ?_, ?_⟩
  · have hM : 1 ≤ inp.mProf := by
      simp only [validate, Bool.and_eq_true, decide_eq_true_eq] at hv
      omega
    have he : Finset.Ico (inp.mProf - 1 + 1) inp.mProf = ∅ := by
      rw [show inp.mProf - 1 + 1 = inp.mProf by omega]
      simp
    simp [ftp_int, ftpNum, he]
  · rw [hval, abs_sub_lt_iff]
    norm_num
  · norm_num [ftp_int, ftpNum, Finset.sum_Ico_eq_sum_range,
      Finset.sum_range_succ, stock_varstock_instal, stock_varstock_amort,
      stock_amort, market_rate, stockInp]

/-- C6 witness: C6 instantiated on the stock fixture with the stock
`varstock_instal`, at cohort 0, bucket 0. -/
theorem claim_C6_witness :
    validate stockInp = true ∧
    ftp_int stockInp (stock_varstock_instal stockInp) 0 (stockInp.mProf - 1) = 0 :=
  ⟨by decide,
   (claim_C6_ftp_int.1 stockInp (by decide) (stock_varstock_instal stockInp)
     (by simp) 0 (by decide) 0 (by decide)).2⟩

/-- C7: for every valid input and under both methods, the installment
matrices vanish at column 0, and the installments over columns 1..M−1
plus the final balance telescope back to the initial balance
`stock_amort[i,0]`. -/
theorem claim_C7_telescoping :
    ∀ inp : Inputs, validate inp = true →
      ∀ i < inp.nOut,
        stock_instal inp i 0 = 0 ∧
        stock_varstock_instal inp i 0 = 0 ∧
        flux_stock_instal inp i 0 = 0 ∧
        flux_varstock_instal inp i 0 = 0 ∧
        (∑ j ∈ Finset.Ico 1 inp.mProf, stock_instal inp i j) +
          stock_amort inp i (inp.mProf - 1) = stock_amort inp i 0 ∧
        (∑ j ∈ Finset.Ico 1 inp.mProf, flux_stock_instal inp i j) +
          flux_stock_amort inp i (inp.mProf - 1) = flux_stock_amort inp i 0 := by
  intro inp _ i _
  refine ⟨by simp [stock_instal], by simp [stock_varstock_instal],
    by simp [flux_stock_instal], by simp [flux_varstock_instal], ?_, ?_⟩
  · have h1 : ∀ j ∈ Finset.Ico 1 inp.mProf,
        stock_instal inp i j =
          stock_amort inp i (j - 1) - stock_amort inp i j := by
      intro j hj
      rw [Finset.mem_Ico] at hj
      have hj0 : j ≠ 0 := by omega
      simp [stock_instal, hj0]
    rw [Finset.sum_congr rfl h1]
    exact telescope_diff (stock_amort inp i) inp.mProf
  · have h1 : ∀ j ∈ Finset.Ico 1 inp.mProf,
        flux_stock_instal inp i j =
          flux_stock_amort inp i (j - 1) - flux_stock_amort inp i j := by
      intro j hj
      rw [Finset.mem_Ico] at hj
      have hj0 : j ≠ 0 := by omega
      simp [flux_stock_instal, hj0]
    rw [Finset.sum_congr rfl h1]
    exact telescope_diff (flux_stock_amort inp i) inp.mProf

/-- C7 witness: C7 instantiated on the stock fixture at cohort 0. -/
theorem claim_C7_witness :
    validate stockInp = true ∧
    (∑ j ∈ Finset.Ico 1 stockInp.mProf, stock_instal stockInp 0 j) +
      stock_amort stockInp 0 (stockInp.mProf - 1) = stock_amort stockInp 0 0 :=
  ⟨by decide,
   (claim_C7_telescoping stockInp (by decide) 0 (by decide)).2.2.2.2.1⟩

/-- The mismatched-row-count fixture of
`TestErrorHandling.test_invalid_dimensions`: outstanding has 2 rows
while profile and rate have 1 row each. -/
def badInp : Inputs where
  nOut := 2
  nProf := 1
  mProf := 2
  nRate := 1
  mRate := 1
  outstanding := fun i => [(1000 : ℚ), 1200].getD i 0
  profile := fun i j => (([[(1 : ℚ), 1/2]]).getD i []).getD j 0
  rate := fun i j => (([[(13 : ℚ)/1000]]).getD i []).getD j 0

/-- C8: `compute` fails with UnknownMethod for every method string
other than "stock" or "flux" (even on invalid inputs, i.e. before
validation); the Validator rejects exactly the inputs whose row counts
differ or whose profile column count is not the rate column count plus
one, and `compute` then fails with DimensionMismatch; and on any
failure the facade is unchanged, so a fresh facade remains
Uninitialized with no partial bundle stored. -/
theorem claim_C8_compute_errors :
    ∀ inp : Inputs, ∀ m : String,
      (m ≠ "stock" → m ≠ "flux" →
        (Facade.init inp).compute m =
          (Facade.init inp, some FtpError.unknownMethod)) ∧
      ((inp.nProf ≠ inp.nOut ∨ inp.nRate ≠ inp.nOut ∨
          inp.mProf ≠ inp.mRate + 1) ↔ validate inp = false) ∧
      (validate inp = false → m = "stock" ∨ m = "flux" →
        (Facade.init inp).compute m =
          (Facade.init inp, some FtpError.dimensionMismatch)) ∧
      (∀ f : Facade, ∀ e : FtpError,
        (f.compute m).2 = some e → (f.compute m).1 = f) ∧
      (∀ e : FtpError, ((Facade.init inp).compute m).2 = some e →
        (((Facade.init inp).compute m).1).state = none) := by
  intro inp m
  have hval : validate inp = true ↔
      (inp.nProf = inp.nOut ∧ inp.nRate = inp.nOut ∧
        inp.mProf = inp.mRate + 1) := by
    simp [validate, and_assoc]
  refine ⟨fun h1 h2 => ?_, ?_, fun hvf hm => ?_, fun f e h => ?_, fun e h => ?_⟩
  · simp [Facade.compute, h1, h2]
  · rw [Bool.eq_false_iff]
    constructor
    · intro hd hv2
      rcases hval.mp hv2 with ⟨a, b, c⟩
      tauto
    · intro hnv
      by_contra hno
      push_neg at hno
      exact hnv (hval.mpr ⟨hno.1, hno.2.1, hno.2.2⟩)
  · have hnm : ¬ (m ≠ "stock" ∧ m ≠ "flux") := by tauto
    simp [Facade.compute, hnm, hvf, Facade.init]
  · by_cases h1 : m ≠ "stock" ∧ m ≠ "flux"
    · simp [Facade.compute, h1]
    · by_cases h2 : validate f.inputs = false
      · simp [Facade.compute, h1, h2]
      · exfalso
        simp [Facade.compute, h1, h2] at h
  · by_cases h1 : m ≠ "stock" ∧ m ≠ "flux"
    · simp [Facade.compute, h1, Facade.init]
    · by_cases h2 : validate inp = false
      · simp [Facade.compute, h1, h2, Facade.init]
      · exfalso
        simp [Facade.compute, h1, h2, Facade.init] at h

/-- C8 witness: on the test's mismatched-dimension fixture,
`compute("stock")` fails with DimensionMismatch and leaves the facade
untouched. -/
theorem claim_C8_witness :
    validate badInp = false ∧
    (Facade.init badInp).compute ("stock") =
      (Facade.init badInp, some FtpError.dimensionMismatch) :=
  ⟨by decide,
   (claim_C8_compute_errors badInp ("stock")).2.2.1 (by decide) (Or.inl rfl)⟩

/-- C9: reading any of the seven output matrices from a facade that
has not had a successful `compute` — freshly constructed, or after a
failed `compute` — fails with NotComputedError, while `dims` returns
(row count of outstanding, column count of profile) in every state,
both before and after a `compute` attempt. -/
theorem claim_C9_accessors :
    ∀ inp : Inputs, ∀ k : OutputKey, ∀ m : String,
      (Facade.init inp).get k = Except.error FtpError.notComputed ∧
      (∀ f : Facade, f.state = none →
        f.get k = Except.error FtpError.notComputed) ∧
      (∀ e : FtpError, ((Facade.init inp).compute m).2 = some e →
        (((Facade.init inp).compute m).1).get k =
          Except.error FtpError.notComputed) ∧
      (Facade.init inp).dims = (inp.nOut, inp.mProf) ∧
      (((Facade.init inp).compute m).1).dims = (inp.nOut, inp.mProf) := by
  intro inp k m
  refine ⟨rfl, fun f h => ?_, fun e h => ?_, rfl, ?_⟩
  · simp [Facade.get, h]
  · by_cases h1 : m ≠ "stock" ∧ m ≠ "flux"
    · simp [Facade.compute, h1, Facade.init, Facade.get]
    · by_cases h2 : validate inp = false
      · simp [Facade.compute, h1, h2, Facade.init, Facade.get]
      · exfalso
        simp [Facade.compute, h1, h2, Facade.init] at h
  · by_cases h1 : m ≠ "stock" ∧ m ≠ "flux"
    · simp [Facade.compute, h1, Facade.init, Facade.dims]
    · by_cases h2 : validate inp = false
      · simp [Facade.compute, h1, h2, Facade.init, Facade.dims]
      · simp [Facade.compute, h1, h2, Facade.init, Facade.dims]

/-- C9 witness: a freshly constructed facade on the stock fixture
refuses the `stock_amort` accessor and reports dims (3, 4). -/
theorem claim_C9_witness :
    (Facade.init stockInp).get OutputKey.stock_amort =
      Except.error FtpError.notComputed ∧
    (Facade.init stockInp).dims = (3, 4) :=
  ⟨(claim_C9_accessors stockInp OutputKey.stock_amort ("stock")).2.1
     (Facade.init stockInp) rfl,
   (claim_C9_accessors stockInp OutputKey.stock_amort ("stock")).2.2.2.1⟩

end FTP
